import Mathlib

/-!
Verification of the OllamaVision GUI backend-abstraction core
(`ollamavision_gui.py`): a shallow embedding of the `OllamaVisionAPI`
client and the `OllamaVisionGUI` connection/catalog state machine,
with theorems checking the natural-language specification against it.

Network I/O is modelled by passing the outcome of each HTTP attempt as
an explicit argument (an oracle): `requests` raising a
`RequestException` (connection refused, timeout, or a non-2xx status
surfaced by `raise_for_status`) is one constructor, a 2xx response with
a parsed JSON body is the other.  Python dict bodies are association
lists preserving insertion order; Python floats are modelled as `ℚ`.
-/

/- ### String helpers mirroring the Python primitives used -/

/-- Lexicographic code-point comparison on character lists: Python `str <=`. -/
def listLeB : List Char → List Char → Bool
  | [], _ => true
  | _ :: _, [] => false
  | a :: as, b :: bs =>
      if a.toNat < b.toNat then true
      else if b.toNat < a.toNat then false
      else listLeB as bs

/-- Python `str <=` on strings. -/
def strLeB (a b : String) : Bool := listLeB a.data b.data

theorem listLeB_total (a b : List Char) : listLeB a b = true ∨ listLeB b a = true := by
  induction a generalizing b with
  | nil => left; rfl
  | cons x xs ih =>
    cases b with
    | nil => right; rfl
    | cons y ys =>
      by_cases h1 : x.toNat < y.toNat
      · left; simp [listLeB, h1]
      · by_cases h2 : y.toNat < x.toNat
        · right; simp [listLeB, h2]
        · rcases ih ys with h | h
          · left; simp [listLeB, h1, h2, h]
          · right; simp [listLeB, h1, h2, h]

theorem listLeB_trans {a b c : List Char} (hab : listLeB a b = true)
    (hbc : listLeB b c = true) : listLeB a c = true := by
  induction a generalizing b c with
  | nil => rfl
  | cons x xs ih =>
    cases b with
    | nil => simp [listLeB] at hab
    | cons y ys =>
      cases c with
      | nil => simp [listLeB] at hbc
      | cons z zs =>
        simp only [listLeB] at hab hbc ⊢
        by_cases hxy : x.toNat < y.toNat
        · by_cases hyz : y.toNat < z.toNat
          · simp [Nat.lt_trans hxy hyz]
          · by_cases hzy : z.toNat < y.toNat
            · simp [listLeB, hyz, hzy] at hbc
            · have : y.toNat = z.toNat := Nat.le_antisymm (Nat.le_of_not_lt hzy) (Nat.le_of_not_lt hyz)
              simp [this ▸ hxy]
        · by_cases hyx : y.toNat < x.toNat
          · simp [hxy, hyx] at hab
          · have hxyeq : x.toNat = y.toNat := Nat.le_antisymm (Nat.le_of_not_lt hyx) (Nat.le_of_not_lt hxy)
            simp only [hxy, if_neg, hyx, if_false, if_true] at hab
            by_cases hyz : y.toNat < z.toNat
            · simp [hxyeq ▸ hyz]
            · by_cases hzy : z.toNat < y.toNat
              · simp [hyz, hzy] at hbc
              · simp only [hyz, hzy, if_false] at hbc
                have h3 : ¬ x.toNat < z.toNat → ¬ z.toNat < x.toNat → listLeB xs zs = true := by
                  intro _ _
                  exact ih (by simpa [hxy, hyx] using hab) hbc
                by_cases hxz : x.toNat < z.toNat
                · simp [hxz]
                · by_cases hzx : z.toNat < x.toNat
                  · omega
                  · simp [hxz, hzx, h3 hxz hzx]

instance : IsTotal String (fun a b => strLeB a b = true) :=
  ⟨fun a b => listLeB_total a.data b.data⟩

instance : IsTrans String (fun a b => strLeB a b = true) :=
  ⟨fun _ _ _ hab hbc => listLeB_trans hab hbc⟩

/-- Python `list.sort()` on a list of strings (ascending code-point order). -/
def sortStrings (l : List String) : List String :=
  List.insertionSort (fun a b => strLeB a b = true) l

theorem sortStrings_sorted (l : List String) :
    List.Sorted (fun a b => strLeB a b = true) (sortStrings l) :=
  List.sorted_insertionSort _ l

theorem sortStrings_perm (l : List String) : (sortStrings l).Perm l :=
  List.perm_insertionSort _ l

theorem mem_sortStrings {m : String} {l : List String} : m ∈ sortStrings l ↔ m ∈ l :=
  (sortStrings_perm l).mem_iff

/-- Python `str.lower()` (ASCII case folding, as used on model ids). -/
def lowerStr (s : String) : String := ⟨s.data.map Char.toLower⟩

/-- Python `needle in hay` substring membership on strings. -/
def containsSub (hay needle : List Char) : Bool :=
  (List.range (hay.length + 1)).any (fun i => needle.isPrefixOf (hay.drop i))

/-- Python `sub in s` for strings. -/
def pyContains (hay sub : String) : Bool := containsSub hay.data sub.data

/-- Python `str.strip()` (whitespace trimmed from both ends). -/
def pyStrip (s : String) : String :=
  ⟨((s.data.dropWhile Char.isWhitespace).reverse.dropWhile Char.isWhitespace).reverse⟩

/-- Python `str.rstrip(c)`: drop trailing occurrences of one character. -/
def rstripChar (s : String) (c : Char) : String :=
  ⟨(s.data.reverse.dropWhile (· = c)).reverse⟩

/-- Python truthiness of an optional string (`None` and `""` are falsy). -/
def strTruthy : Option String → Bool
  | none => false
  | some s => s ≠ ""

/- ### JSON values and flat request bodies -/

/-- A JSON value as it appears in the flat request bodies the client builds. -/
inductive JVal where
  | jstr : String → JVal
  | jnum : ℚ → JVal
  | jint : ℤ → JVal
  | jbool : Bool → JVal
  | jnull : JVal
deriving DecidableEq, Repr

/-- A flat JSON object: an association list preserving insertion order,
as a Python `dict` does. -/
abbrev JBody := List (String × JVal)

/-- The field names of a body, in order. -/
def keysOf (b : JBody) : List String := b.map Prod.fst

/-- Python `d[k] = v`: replace in place if the key exists, else append. -/
def setKey (b : JBody) (k : String) (v : JVal) : JBody :=
  if (keysOf b).contains k then b.map (fun p => if p.1 = k then (k, v) else p)
  else b ++ [(k, v)]

/-- Python `d.get(k)` on a flat body. -/
def getKey (b : JBody) (k : String) : Option JVal :=
  (b.find? (fun p => p.1 = k)).map Prod.snd

/-- Python truthiness of a JSON value (`None`, `""`, `0`, `False` are falsy). -/
def jTruthy : JVal → Bool
  | .jstr s => s ≠ ""
  | .jnum q => q ≠ 0
  | .jint n => n ≠ 0
  | .jbool b => b
  | .jnull => false

/-- The value Python puts in a body for an `Optional[str]` argument. -/
def optStrJ : Option String → JVal
  | some s => .jstr s
  | none => .jnull

/- ### The `OllamaVisionAPI` client -/

/-- Outcome of one HTTP attempt: a 2xx response with parsed JSON payload
`α`, or a `requests.exceptions.RequestException` (connection refused,
timeout, or non-2xx status raised by `raise_for_status`). -/
inductive Transport (α : Type) where
  | ok : α → Transport α
  | requestException : String → Transport α
deriving Repr, DecidableEq

/-- State of `OllamaVisionAPI`: the (slash-stripped) base URL and the
stored session token (`None` until a bootstrap succeeds). -/
structure OllamaVisionAPI where
  base_url : String
  session_id : Option JVal
deriving Repr, DecidableEq

/-- `OllamaVisionAPI.__init__`: strips trailing slashes, no session yet. -/
def mkOllamaVisionAPI (base_url : String) : OllamaVisionAPI :=
  { base_url := rstripChar base_url '/', session_id := none }

/-- Result dict of `get_swarmui_session`. -/
structure SessionCallResult where
  success : Bool
  message : Option String
  session_id : Option JVal
deriving Repr, DecidableEq

/-- `get_swarmui_session`: POST `/API/GetNewSession` with empty body; a
transport failure is caught and normalized; a response without a
`session_id` field is a normalized failure; otherwise the token is
stored on the client and returned. -/
def get_swarmui_session (api : OllamaVisionAPI) (net : Transport JBody) :
    SessionCallResult × OllamaVisionAPI :=
  match net with
  | .requestException e =>
      (⟨false, some ("Failed to get SwarmUI session: " ++ e), none⟩, api)
  | .ok data =>
      match getKey data "session_id" with
      | some v => (⟨true, none, some v⟩, { api with session_id := some v })
      | none => (⟨false, some "No session_id in response", none⟩, api)

/-- The body `make_request` actually posts: the caller's dict plus the
stored session token under `"session_id"` when the token is truthy. -/
def make_request_body (api : OllamaVisionAPI) (data : JBody) : JBody :=
  match api.session_id with
  | some v => if jTruthy v then setKey data "session_id" v else data
  | none => data

/-- The URL `make_request` posts to. -/
def make_request_url (api : OllamaVisionAPI) (endpoint : String) : String :=
  api.base_url ++ "/API/" ++ endpoint

/-- `make_request`: returns the parsed JSON on success and RAISES
`Exception("API request failed: ...")` (modelled as `Except.error`) on
any transport failure — it does not normalize to a result dict. -/
def make_request {α : Type} (api : OllamaVisionAPI) (endpoint : String)
    (data : JBody) (net : Transport α) : Except String α :=
  let _ := make_request_body api data
  let _ := make_request_url api endpoint
  match net with
  | .ok j => .ok j
  | .requestException e => .error ("API request failed: " ++ e)

/- ### Request bodies built for each gateway operation -/

/-- Body of `connect_ollama`. -/
def connect_ollama_body (ollama_url : String) (show_all : Bool) : JBody :=
  [("ollamaUrl", .jstr ollama_url), ("showAllModels", .jbool show_all)]

/-- Body of `connect_textgen`. -/
def connect_textgen_body (textgen_url : String) : JBody :=
  [("textgenUrl", .jstr textgen_url)]

/-- Body of `analyze_image`: base fields, then `systemPrompt` only when
the override is truthy (non-`None`, non-empty), then the
backend-discriminated auth fields. -/
def analyze_image_body (image_data model backend_type prompt : String)
    (temperature : ℚ) (max_tokens : ℤ) (ollama_url : String)
    (api_key : Option String) (site_name : String)
    (system_prompt : Option String) : JBody :=
  let data : JBody :=
    [("model", .jstr model), ("backendType", .jstr backend_type),
     ("imageData", .jstr image_data), ("prompt", .jstr prompt),
     ("temperature", .jnum temperature), ("maxTokens", .jint max_tokens)]
  let data := if strTruthy system_prompt
    then data ++ [("systemPrompt", .jstr (system_prompt.getD ""))] else data
  if backend_type = "ollama" then data ++ [("ollamaUrl", .jstr ollama_url)]
  else if backend_type = "openai" ∨ backend_type = "openrouter" then
    let data := data ++ [("apiKey", optStrJ api_key)]
    if backend_type = "openrouter" then data ++ [("siteName", .jstr site_name)]
    else data
  else data

/-- Body of `batch_caption_images`. -/
def batch_caption_body (folder_path model backend_type caption_style trigger_word : String)
    (temperature : ℚ) (max_tokens : ℤ) (ollama_url : String)
    (api_key : Option String) (site_name : String) : JBody :=
  let data : JBody :=
    [("folderPath", .jstr folder_path), ("model", .jstr model),
     ("backendType", .jstr backend_type), ("captionStyle", .jstr caption_style),
     ("triggerWord", .jstr trigger_word),
     ("temperature", .jnum temperature), ("maxTokens", .jint max_tokens)]
  if backend_type = "ollama" then data ++ [("ollamaUrl", .jstr ollama_url)]
  else if backend_type = "openai" ∨ backend_type = "openrouter" then
    let data := data ++ [("apiKey", optStrJ api_key)]
    if backend_type = "openrouter" then data ++ [("siteName", .jstr site_name)]
    else data
  else data

/-- Body of `enhance_text_prompt`. -/
def enhance_text_body (model backend_type prompt : String)
    (temperature : ℚ) (max_tokens : ℤ) (ollama_url : String)
    (api_key : Option String) (site_name : String)
    (system_prompt : Option String) : JBody :=
  let data : JBody :=
    [("model", .jstr model), ("backendType", .jstr backend_type),
     ("prompt", .jstr prompt),
     ("temperature", .jnum temperature), ("maxTokens", .jint max_tokens)]
  let data := if strTruthy system_prompt
    then data ++ [("systemPrompt", .jstr (system_prompt.getD ""))] else data
  if backend_type = "ollama" then data ++ [("ollamaUrl", .jstr ollama_url)]
  else if backend_type = "openai" ∨ backend_type = "openrouter" then
    let data := data ++ [("apiKey", optStrJ api_key)]
    if backend_type = "openrouter" then data ++ [("siteName", .jstr site_name)]
    else data
  else data

/-- Python default value of the `site_name` parameter of
`analyze_image` / `batch_caption_images` / `enhance_text_prompt`; the
GUI call sites never pass `site_name`, so this default is always used. -/
def default_site_name : String := "SwarmUI"

/- ### Direct third-party model-listing calls -/

/-- A direct (gateway-bypassing) GET request: URL and auth header. -/
structure DirectRequest where
  url : String
  authorization : String
deriving Repr, DecidableEq

/-- The request `get_openai_models` issues. -/
def openai_models_request (api_key : String) : DirectRequest :=
  ⟨"https://api.openai.com/v1/models", "Bearer " ++ api_key⟩

/-- The request `get_openrouter_models` issues. -/
def openrouter_models_request (api_key : String) : DirectRequest :=
  ⟨"https://openrouter.ai/api/v1/models", "Bearer " ++ api_key⟩

/-- The listing response as the code reads it: the optional `"data"`
array, each entry a flat object (provider model ids are strings). -/
structure ListingBody where
  dataField : Option (List JBody)
deriving Repr, DecidableEq

/-- `model.get("id", "")` on one entry of the `data` array. -/
def entry_id (e : JBody) : String :=
  match getKey e "id" with
  | some (.jstr s) => s
  | _ => ""

/-- `if model_id:` — keep only truthy (non-empty) ids. -/
def nonEmptyStr (s : String) : Bool := s ≠ ""

/-- Result dict of the listing calls. -/
structure ListModelsResult where
  success : Bool
  message : Option String
  models : List String
deriving Repr, DecidableEq

/-- `get_openai_models`: transport failures are caught and normalized;
on success every entry id is collected in response order, but only when
the id is truthy (`if model_id:`). -/
def get_openai_models (api_key : String) (net : Transport ListingBody) :
    ListModelsResult :=
  let _ := openai_models_request api_key
  match net with
  | .requestException e =>
      ⟨false, some ("Failed to fetch OpenAI models: " ++ e), []⟩
  | .ok body =>
      ⟨true, none, ((body.dataField.getD []).map entry_id).filter nonEmptyStr⟩

/-- `get_openrouter_models`: same shape as `get_openai_models` against
the OpenRouter endpoint. -/
def get_openrouter_models (api_key : String) (net : Transport ListingBody) :
    ListModelsResult :=
  let _ := openrouter_models_request api_key
  match net with
  | .requestException e =>
      ⟨false, some ("Failed to fetch OpenRouter models: " ++ e), []⟩
  | .ok body =>
      ⟨true, none, ((body.dataField.getD []).map entry_id).filter nonEmptyStr⟩

/- ### The GUI connection / catalog state machine -/

/-- A gateway JSON response projected onto the fields the GUI reads:
`result.get("success", False)` (as a truthiness test), the optional
`"models"` array, and the optional `"message"`. -/
structure GatewayResp where
  success : Bool
  models : Option (List String)
  message : Option String
deriving Repr, DecidableEq

/-- The state the `OllamaVisionGUI` object carries for connection,
catalog and settings handling (display-only widgets are omitted except
the model-count label, which a claim quantifies). -/
structure GuiState where
  is_connected : Bool
  selected_model : Option String
  available_models : List String
  all_models : List String
  filtered_models : List String
  listbox_selection : Option ℕ
  model_count_var : String
  model_search_var : String
  default_model_var : String
  backend_var : String
  swarmui_url_var : String
  ollama_url_var : String
  api_key_var : String
  session_id_var : String
  openai_api_key : String
  openrouter_api_key : String
  textgen_url : String
  temperature_var : ℚ
  max_tokens_var : ℤ
  top_p_var : ℚ
  top_k_var : ℤ
  repeat_penalty_var : ℚ
  seed_var : ℤ
  frequency_penalty_var : ℚ
  presence_penalty_var : ℚ
  min_p_var : ℚ
  top_a_var : ℚ
  current_image_data : Option String
  prompt_var : String
  wan_i2v_var : Bool
  folder_path_var : String
  caption_style_var : String
  trigger_word_var : String
  enhancement_type_var : String
  api : Option OllamaVisionAPI
deriving Repr, DecidableEq

/-- `update_models_display`: clears the listbox selection, re-fills the
listbox from `filtered_models`, copies `filtered_models` into
`available_models`, and recomputes the model-count label. -/
def update_models_display (st : GuiState) : GuiState :=
  let total := st.all_models.length
  let fc := st.filtered_models.length
  let label :=
    if total = 0 then "No models loaded"
    else if fc = total then "Showing " ++ toString total ++ " models"
    else "Showing " ++ toString fc ++ " of " ++ toString total ++ " models"
  { st with listbox_selection := none,
            available_models := st.filtered_models,
            model_count_var := label }

/-- `filter_models`: case-insensitive substring filter of `all_models`
by the search text; an empty search restores the whole catalog. -/
def filter_models (st : GuiState) : GuiState :=
  let search := lowerStr st.model_search_var
  let filtered :=
    if search = "" then st.all_models
    else st.all_models.filter (fun m => pyContains (lowerStr m) search)
  update_models_display { st with filtered_models := filtered }

/-- `connect_ollama`: `ConnectToOllamaAsync` through `make_request`. -/
def connect_ollama (api : OllamaVisionAPI) (ollama_url : String) (show_all : Bool)
    (net : Transport GatewayResp) : Except String GatewayResp :=
  make_request api "ConnectToOllamaAsync" (connect_ollama_body ollama_url show_all) net

/-- `connect_textgen`: `ConnectToTextGenAsync` through `make_request`. -/
def connect_textgen (api : OllamaVisionAPI) (textgen_url : String)
    (net : Transport GatewayResp) : Except String GatewayResp :=
  make_request api "ConnectToTextGenAsync" (connect_textgen_body textgen_url) net

/-- Network oracle for one `load_models` call: the gateway connect-and-list
response (ollama branch) and the direct listing response (openai /
openrouter branches); only the branch taken consumes its outcome. -/
structure LoadNet where
  gw : Transport GatewayResp
  listing : Transport ListingBody
deriving Repr, DecidableEq

/-- `load_models`: first clears the listbox and `available_models`, then
branches on the backend.  The ollama branch re-issues `connect_ollama`
(with the DEFAULT URL `http://localhost:11434`, not the URL field); the
openai/openrouter branches check the API key before any request and use
the direct listing calls; any other backend (including textgen) fetches
nothing.  On a successful fetch the models are sorted ascending and
copied into `all_models` / `filtered_models` (ignoring the current
search text), and the display is refreshed; on any failure the state is
left as is (with `available_models` already cleared). -/
def load_models (st : GuiState) (net : LoadNet) : GuiState :=
  let st0 := { st with listbox_selection := none, available_models := [] }
  if st0.backend_var = "ollama" then
    match st0.api with
    | none => st0
    | some api =>
      match connect_ollama api "http://localhost:11434" true net.gw with
      | .error _ => st0
      | .ok r =>
        if r.success then
          match r.models with
          | some ms =>
            let ms := sortStrings ms
            update_models_display { st0 with all_models := ms, filtered_models := ms }
          | none => st0
        else st0
  else if st0.backend_var = "openai" then
    if st0.api_key_var = "" then st0
    else
      let result := get_openai_models st0.api_key_var net.listing
      if result.success then
        let ms := sortStrings result.models
        update_models_display { st0 with all_models := ms, filtered_models := ms }
      else st0
  else if st0.backend_var = "openrouter" then
    if st0.api_key_var = "" then st0
    else
      let result := get_openrouter_models st0.api_key_var net.listing
      if result.success then
        let ms := sortStrings result.models
        update_models_display { st0 with all_models := ms, filtered_models := ms }
      else st0
  else st0

/-- Session token as shown by `update_session_id_display`. -/
def jvalStr : JVal → String
  | .jstr s => s
  | _ => ""

/-- Network oracle for one `connect_backend` call. -/
structure ConnectNet where
  session : Transport JBody
  step : Transport GatewayResp
  load : LoadNet
deriving Repr, DecidableEq

/-- The tail of `connect_backend` after the backend-specific step: a
raised step (transport failure) or a non-success result only shows an
error; on success the models are loaded, the stripped stored default is
selected when it is a member of the loaded catalog (else the first
model, when any model is there), and only then `is_connected := true`. -/
def connect_post_step (st1 : GuiState) (step : Except String GatewayResp)
    (load : LoadNet) : GuiState :=
  match step with
  | .error _ => st1
  | .ok r =>
    if r.success then
      let st2 := load_models st1 load
      let st3 :=
        if st2.available_models ≠ [] then
          let d := pyStrip st2.default_model_var
          if d ≠ "" ∧ d ∈ st2.available_models then
            { st2 with selected_model := some d }
          else
            { st2 with selected_model := some st2.available_models.headI }
        else st2
      { st3 with is_connected := true }
    else st1

/-- `connect_backend`: replaces the API client, bootstraps a session
(aborting on failure), validates/connects the selected backend
(TextGen: URL required; OpenAI/OpenRouter: API key required, no network
probe), then hands over to `connect_post_step`. -/
def connect_backend (st : GuiState) (net : ConnectNet) : GuiState :=
  let api0 := mkOllamaVisionAPI st.swarmui_url_var
  let (sres, api1) := get_swarmui_session api0 net.session
  let st1 := { st with api := some api1 }
  if ¬ sres.success then st1
  else
    let st1 := { st1 with session_id_var := jvalStr (api1.session_id.getD .jnull) }
    if st1.backend_var = "ollama" then
      connect_post_step st1 (connect_ollama api1 st1.ollama_url_var true net.step) net.load
    else if st1.backend_var = "textgen" then
      if st1.ollama_url_var = "" then st1
      else connect_post_step st1 (connect_textgen api1 st1.ollama_url_var net.step) net.load
    else if st1.backend_var = "openai" ∨ st1.backend_var = "openrouter" then
      if st1.api_key_var = "" then st1
      else connect_post_step st1 (.ok ⟨true, none, some "Connected to external API"⟩) net.load
    else
      connect_post_step st1 (.ok ⟨false, none, some "Unknown backend type"⟩) net.load

/-- `disconnect_backend`: clears connection flag, selection, catalog and
the API client reference, then refreshes the display.  Stored
credentials, the default model and the settings file are untouched. -/
def disconnect_backend (st : GuiState) : GuiState :=
  update_models_display
    { st with is_connected := false, selected_model := none,
              available_models := [], all_models := [], filtered_models := [],
              api := none }

/-- The built-in Wan I2V "movie director" system prompt of `_analyze_image_thread` (verbatim source text). -/
def wan_i2v_director_prompt : String :=
  "You are a movie director. You can take a single image and turn it into a full thought out scene. Instead of screenplays you write video generation prompts for image to video. You don\x27t need to describe the image. Just analyze the image and describe a scene with motion and camera movements based on the image given to you. The user may give a short prompt for direction. Enhance that prompt and flesh out the users idea. Don\x27t be vague. Describe action and movement don\x27t\x27 just say \"moves, runs, walks\" give action words to the action itself. Do not describe sounds as the video will not have sound. Mention things in the image but there is no need to describe them. If you want a man in a green shirt that is in the image to move simply say something like this example shows: \"the man in the green shirt begins to walk briskly...\". Begin your prompt with what the image shows. The image sent to you will be the first frame of the video so you should make your prompt with this in mind. Do not begin the scene with anything other than the image sent to you. Take the first frame image and expand from that. The video will be on average about 5 seconds in length. Make your prompt fit within this constraint. Do not make the prompt so long that it can\x27t fit into a 5 second video clip. Be descriptive but concise. Don\x27t use phrasing like \"the camera pivots behind a hovering helicopter\" instead say \"the camera pivots behind the hovering helicopter\" use what\x27s in the image to build the prompt.\n" ++
  "\n" ++
  "Return only the prompt you make from the image. Do not explain yourself or give any extra information other than the prompt you make from the image. Do not describe the image or give any information about the image other than the video prompt. The prompt should not include any description of the image."

/-- The built-in "qwen" enhancement system prompt of `get_enhancement_system_prompt` (verbatim source text). -/
def qwen_enhancement_prompt : String :=
  "# Qwen Prompt Enhancement System\n" ++
  "\n" ++
  "You are an expert prompt enhancement specialist designed to transform brief, basic prompts into rich, detailed, and comprehensive instructions that will produce superior results from AI image generation models.\n" ++
  "\n" ++
  "## Core Function\n" ++
  "\n" ++
  "Your primary role is to receive short, simple prompts from users and expand them into fully-fleshed, detailed prompts that include:\n" ++
  "- Rich visual descriptions\n" ++
  "- Technical specifications\n" ++
  "- Artistic direction\n" ++
  "- Contextual details\n" ++
  "- Quality enhancers\n" ++
  "- Style specifications\n" ++
  "\n" ++
  "## Enhancement Framework\n" ++
  "\n" ++
  "### Visual Detail Expansion\n" ++
  "**Transform basic subjects into rich descriptions:**\n" ++
  "- Simple: \"a cat\" \n" ++
  "- Enhanced: \"a majestic Maine Coon cat with luxurious silver-gray fur, piercing amber eyes, sitting regally with perfect posture, whiskers catching soft light\"\n" ++
  "\n" ++
  "**Add environmental context:**\n" ++
  "- Specify lighting conditions (golden hour, studio lighting, natural daylight, dramatic shadows)\n" ++
  "- Include atmospheric elements (mist, rain, snow, dust particles, lens flares)\n" ++
  "- Describe backgrounds and settings in detail\n" ++
  "- Add weather and seasonal indicators\n" ++
  "\n" ++
  "### Technical Quality Specifications\n" ++
  "Always include technical parameters to ensure high-quality output:\n" ++
  "- **Resolution indicators:** \"8K resolution,\" \"ultra high definition,\" \"crisp detail\"\n" ++
  "- **Camera specifications:** \"shot with professional DSLR,\" \"50mm lens,\" \"shallow depth of field\"\n" ++
  "- **Lighting setup:** \"three-point lighting,\" \"soft box lighting,\" \"natural window light\"\n" ++
  "- **Composition rules:** \"rule of thirds,\" \"centered composition,\" \"dynamic angle\"\n" ++
  "\n" ++
  "### Artistic Style Integration\n" ++
  "Enhance prompts with specific artistic directions:\n" ++
  "- **Photography styles:** portrait, landscape, macro, street photography, documentary\n" ++
  "- **Artistic movements:** impressionistic, photorealistic, surreal, minimalist, baroque\n" ++
  "- **Color palettes:** warm tones, cool blues, monochromatic, vibrant saturated colors\n" ++
  "- **Mood descriptors:** serene, dramatic, mysterious, energetic, melancholic\n" ++
  "\n" ++
  "### Quality Enhancement Keywords\n" ++
  "Include power words that improve AI generation:\n" ++
  "- **Clarity enhancers:** \"sharp focus,\" \"crystal clear,\" \"highly detailed,\" \"intricate\"\n" ++
  "- **Professional markers:** \"award-winning,\" \"masterpiece,\" \"professional grade,\" \"gallery quality\"\n" ++
  "- **Texture descriptors:** \"smooth,\" \"rough,\" \"glossy,\" \"matte,\" \"textured surface\"\n" ++
  "- **Depth indicators:** \"bokeh background,\" \"layered composition,\" \"foreground and background separation\"\n" ++
  "\n" ++
  "## Enhancement Process\n" ++
  "\n" ++
  "### Step 1: Subject Analysis\n" ++
  "- Identify the core subject or concept\n" ++
  "- Determine the likely intent (artistic, commercial, documentary, etc.)\n" ++
  "- Assess what visual elements would enhance the concept\n" ++
  "\n" ++
  "### Step 2: Context Building\n" ++
  "- Add relevant environmental details\n" ++
  "- Include time of day/season if appropriate\n" ++
  "- Specify location or setting characteristics\n" ++
  "- Consider cultural or historical context\n" ++
  "\n" ++
  "### Step 3: Technical Specification\n" ++
  "- Add camera and lens specifications\n" ++
  "- Include lighting setup details\n" ++
  "- Specify composition guidelines\n" ++
  "- Add quality and resolution markers\n" ++
  "\n" ++
  "### Step 4: Artistic Direction\n" ++
  "- Define visual style and aesthetic\n" ++
  "- Add color palette guidance\n" ++
  "- Include mood and atmosphere descriptors\n" ++
  "- Specify any artistic influences or techniques\n" ++
  "\n" ++
  "### Step 5: Quality Assurance\n" ++
  "- Include professional quality indicators\n" ++
  "- Add detail enhancement keywords\n" ++
  "- Specify any technical perfection requirements\n" ++
  "- Include output format preferences\n" ++
  "\n" ++
  "## Enhancement Examples\n" ++
  "\n" ++
  "**Basic Prompt:** \"sunset over mountains\"\n" ++
  "**Enhanced Prompt:** \"Breathtaking golden hour sunset over majestic snow-capped mountain peaks, dramatic cloud formations painted in brilliant oranges, purples, and magentas, alpine landscape with pristine lakes reflecting the colorful sky, shot with telephoto lens creating compressed perspective, professional landscape photography, award-winning composition following rule of thirds, crystal clear 8K detail, HDR lighting capturing full dynamic range, serene and awe-inspiring atmosphere\"\n" ++
  "\n" ++
  "**Basic Prompt:** \"woman reading\"\n" ++
  "**Enhanced Prompt:** \"Elegant woman in her thirties with flowing auburn hair, wearing a cream-colored cashmere sweater, peacefully reading a leather-bound book in a cozy library corner, warm afternoon sunlight streaming through tall windows creating gentle shadows, surrounded by towering mahogany bookshelves filled with classic literature, shot with 85mm portrait lens, shallow depth of field with beautiful bokeh, soft natural lighting, intimate and contemplative mood, photorealistic detail, professional portraiture style\"\n" ++
  "\n" ++
  "## Output Format Requirements\n" ++
  "\n" ++
  "Structure enhanced prompts as single, flowing descriptions that include:\n" ++
  "1. **Main Subject** (detailed description)\n" ++
  "2. **Setting/Environment** (contextual details)\n" ++
  "3. **Lighting/Atmosphere** (mood and technical lighting)\n" ++
  "4. **Technical Specifications** (camera, quality, resolution)\n" ++
  "5. **Artistic Style** (aesthetic direction and mood)\n" ++
  "6. **Quality Enhancers** (professional markers and detail specifications)\n" ++
  "\n" ++
  "## Key Enhancement Principles\n" ++
  "\n" ++
  "### Specificity Over Generality\n" ++
  "- Replace vague terms with precise descriptors\n" ++
  "- Add measurable qualities (colors, sizes, textures)\n" ++
  "- Include specific rather than generic elements\n" ++
  "\n" ++
  "### Visual Richness\n" ++
  "- Layer multiple descriptive elements\n" ++
  "- Include sensory details that translate visually\n" ++
  "- Add elements that create depth and interest\n" ++
  "\n" ++
  "### Professional Standards\n" ++
  "- Include industry-standard terminology\n" ++
  "- Add technical specifications that matter\n" ++
  "- Reference professional photography/art concepts\n" ++
  "\n" ++
  "### Contextual Relevance\n" ++
  "- Ensure all additions serve the core concept\n" ++
  "- Maintain logical consistency throughout\n" ++
  "- Balance detail with focus on the main subject\n" ++
  "\n" ++
  "## Response Guidelines\n" ++
  "\n" ++
  "- Always expand significantly on the original prompt\n" ++
  "- Maintain the user\x27s original intent while enriching it\n" ++
  "- Provide prompts that are immediately usable for image generation\n" ++
  "- Include diverse enhancement elements in every response\n" ++
  "- Structure the enhanced prompt for optimal AI interpretation\n" ++
  "- Balance technical precision with creative inspiration\n" ++
  "- Only respong with the enhanced prompt, do not respond with anything like \"here is your enhanced prompt\" or any other description"

/-- The built-in "wan" enhancement system prompt of `get_enhancement_system_prompt` (verbatim source text). -/
def wan_enhancement_prompt : String :=
  "You are a motion prompt enhancement assistant for WAN 2.2 video generation. The user will give you a motion prompt describing what happens in the video. Do not add new elements or change the actions, characters, or events. Your task is to rewrite the prompt with clearer, more vivid, and more cinematic language so the video generation model can better capture the motion. Focus on fluidity, atmosphere, and visual clarity. Keep the sequence of actions identical to the user\x27s original prompt. Respond only with the enhanced motion prompt\u201a\u00c4\u00eeno explanations, lists, or meta commentary\n" ++
  "\n" ++
  "Now enhance the following motion prompt:"

/-- The fallback branch of `get_enhancement_system_prompt` (verbatim source text). -/
def default_enhancement_prompt : String :=
  "Enhance the following text:"

/-- The listbox fallback inside `get_selected_model`. -/
def listbox_fallback (st : GuiState) : Option String :=
  match st.listbox_selection with
  | some i => if h : i < st.available_models.length then some (st.available_models.get ⟨i, h⟩) else none
  | none => none

/-- `get_selected_model`: the stored selection when truthy, else the
current listbox selection, else `None`. -/
def get_selected_model (st : GuiState) : Option String :=
  match st.selected_model with
  | some m => if m ≠ "" then some m else listbox_fallback st
  | none => listbox_fallback st

/-- The credential sync `auto_save_settings` / `save_settings` perform
before writing: the active backend's UI field is copied into its
per-backend store (inactive backends keep their stored values). -/
def sync_stored_credentials (st : GuiState) : GuiState :=
  if st.backend_var = "openai" then { st with openai_api_key := st.api_key_var }
  else if st.backend_var = "openrouter" then { st with openrouter_api_key := st.api_key_var }
  else if st.backend_var = "textgen" then { st with textgen_url := st.ollama_url_var }
  else st

/-- `set_as_default_model`: requires a truthy selection; copies it into
the persisted default and auto-saves (whose only state effect is the
credential sync). -/
def set_as_default_model (st : GuiState) : GuiState :=
  match st.selected_model with
  | some m => if m ≠ "" then sync_stored_credentials { st with default_model_var := m } else st
  | none => st

/-- `on_backend_change`: refreshes the shared UI fields from the
per-backend stores (the shared URL field for textgen, the key field for
openai/openrouter; any other backend clears the key field). -/
def on_backend_change (st : GuiState) : GuiState :=
  if st.backend_var = "openai" then { st with api_key_var := st.openai_api_key }
  else if st.backend_var = "openrouter" then { st with api_key_var := st.openrouter_api_key }
  else if st.backend_var = "textgen" then { st with ollama_url_var := st.textgen_url }
  else { st with api_key_var := "" }

/-- `on_api_key_change` (bound to every keystroke in the key field):
stores the key for the active backend and auto-saves; its state effect
is exactly the credential sync. -/
def on_api_key_change (st : GuiState) : GuiState :=
  sync_stored_credentials st

/-- `get_enhancement_system_prompt`. -/
def get_enhancement_system_prompt (enhancement_type : String) : String :=
  if enhancement_type = "qwen" then qwen_enhancement_prompt
  else if enhancement_type = "wan" then wan_enhancement_prompt
  else default_enhancement_prompt

/- ### The persisted settings document -/

/-- The flat settings JSON document. -/
abbrev SettingsDoc := List (String × JVal)

/-- `settings.get(k, default)` when the stored value is a string (all
documents this code writes store strings under string keys). -/
def getStrD (d : SettingsDoc) (k dflt : String) : String :=
  match getKey d k with
  | some (.jstr s) => s
  | _ => dflt

/-- `settings.get(k, default)` for a float-valued field. -/
def getNumD (d : SettingsDoc) (k : String) (dflt : ℚ) : ℚ :=
  match getKey d k with
  | some (.jnum q) => q
  | _ => dflt

/-- `settings.get(k, default)` for an int-valued field. -/
def getIntD (d : SettingsDoc) (k : String) (dflt : ℤ) : ℤ :=
  match getKey d k with
  | some (.jint n) => n
  | _ => dflt

/-- `save_settings`: syncs the active backend's credential into its
store, then writes every settings field.  Returns the state after the
sync together with the document written. -/
def save_settings (st : GuiState) : GuiState × SettingsDoc :=
  let st := sync_stored_credentials st
  (st,
   [("swarmui_url", .jstr st.swarmui_url_var),
    ("backend", .jstr st.backend_var),
    ("ollama_url", .jstr st.ollama_url_var),
    ("api_key", .jstr st.api_key_var),
    ("default_model", .jstr st.default_model_var),
    ("session_id", .jstr st.session_id_var),
    ("openai_api_key", .jstr st.openai_api_key),
    ("openrouter_api_key", .jstr st.openrouter_api_key),
    ("textgen_url", .jstr st.textgen_url),
    ("temperature", .jnum st.temperature_var),
    ("max_tokens", .jint st.max_tokens_var),
    ("top_p", .jnum st.top_p_var),
    ("top_k", .jint st.top_k_var),
    ("repeat_penalty", .jnum st.repeat_penalty_var),
    ("seed", .jint st.seed_var),
    ("frequency_penalty", .jnum st.frequency_penalty_var),
    ("presence_penalty", .jnum st.presence_penalty_var),
    ("min_p", .jnum st.min_p_var),
    ("top_a", .jnum st.top_a_var)])

/-- `load_settings` applied to an existing settings document: every
field is read with its per-field default, the saved session id is only
restored when non-empty, and `on_backend_change` then refreshes the
shared UI fields from the per-backend stores. -/
def load_settings (d : SettingsDoc) (st : GuiState) : GuiState :=
  let st := { st with
    swarmui_url_var := getStrD d "swarmui_url" "http://localhost:7801",
    backend_var := getStrD d "backend" "ollama",
    ollama_url_var := getStrD d "ollama_url" "http://localhost:11434",
    api_key_var := getStrD d "api_key" "",
    default_model_var := getStrD d "default_model" "" }
  let st :=
    let sid := getStrD d "session_id" ""
    if sid ≠ "" then { st with session_id_var := sid } else st
  let st := { st with
    openai_api_key := getStrD d "openai_api_key" "",
    openrouter_api_key := getStrD d "openrouter_api_key" "",
    textgen_url := getStrD d "textgen_url" "http://localhost:5000",
    temperature_var := getNumD d "temperature" (8/10),
    max_tokens_var := getIntD d "max_tokens" 500,
    top_p_var := getNumD d "top_p" (7/10),
    top_k_var := getIntD d "top_k" 40,
    repeat_penalty_var := getNumD d "repeat_penalty" (11/10),
    seed_var := getIntD d "seed" (-1),
    frequency_penalty_var := getNumD d "frequency_penalty" 0,
    presence_penalty_var := getNumD d "presence_penalty" 0,
    min_p_var := getNumD d "min_p" 0,
    top_a_var := getNumD d "top_a" 0 }
  on_backend_change st

/- ### The analyze / batch / enhance pipelines (validation, then send) -/

/-- The caller-side checks of `analyze_single_image`, in order; `none`
means the background thread is started.  No API-key check appears here. -/
def analyze_validation_error (st : GuiState) : Option String :=
  if ¬ strTruthy st.current_image_data then some "Please select an image first"
  else if st.available_models = [] then some "Please connect to a backend first"
  else if (get_selected_model st).isNone then some "Please select a model from the Connection tab"
  else none

/-- The body `_analyze_image_thread` hands to `analyze_image`: the key
field is passed for openai/openrouter even when the stored key is empty,
and the Wan I2V director persona is the only system-prompt override. -/
def analyze_thread_body (st : GuiState) (model : String) : JBody :=
  analyze_image_body (st.current_image_data.getD "") model st.backend_var st.prompt_var
    st.temperature_var st.max_tokens_var st.ollama_url_var
    (if st.backend_var = "openai" ∨ st.backend_var = "openrouter" then some st.api_key_var else none)
    default_site_name
    (if st.wan_i2v_var then some wan_i2v_director_prompt else none)

/-- The wire body the analyze-image operation posts, or `none` when a
caller-side check stops the operation before any request (a missing API
client also sends nothing: the thread raises before posting). -/
def analyze_request_sent (st : GuiState) : Option JBody :=
  match analyze_validation_error st with
  | some _ => none
  | none =>
    match get_selected_model st, st.api with
    | some m, some api => some (make_request_body api (analyze_thread_body st m))
    | _, _ => none

/-- `process_batch` / `_process_batch_thread` image-extension filter. -/
def image_extensions : List String :=
  [".jpg", ".jpeg", ".png", ".gif", ".bmp", ".tiff", ".webp"]

/-- `any(file.lower().endswith(ext) for ext in image_extensions)`. -/
def is_image_file (f : String) : Bool :=
  image_extensions.any (fun ext => ext.data.isSuffixOf (lowerStr f).data)

/-- The body `_process_batch_thread` hands to `batch_caption_images`. -/
def batch_thread_body (st : GuiState) (model : String) : JBody :=
  batch_caption_body st.folder_path_var model st.backend_var
    st.caption_style_var st.trigger_word_var
    st.temperature_var st.max_tokens_var st.ollama_url_var
    (if st.backend_var = "openai" ∨ st.backend_var = "openrouter" then some st.api_key_var else none)
    default_site_name

/-- The wire body the batch-caption operation posts (given the folder's
file listing), or `none` when a caller-side check or the empty-folder
scan stops it before any request.  No API-key check appears here. -/
def batch_request_sent (st : GuiState) (folder_files : List String) : Option JBody :=
  if st.folder_path_var = "" then none
  else if st.available_models = [] then none
  else
    match get_selected_model st with
    | none => none
    | some m =>
      if (folder_files.filter is_image_file).length = 0 then none
      else
        match st.api with
        | none => none
        | some api => some (make_request_body api (batch_thread_body st m))

/-- The body `_enhance_text_thread` hands to `enhance_text_prompt`: the
stripped input text as the prompt and the enhancement persona as the
system prompt. -/
def enhance_thread_body (st : GuiState) (model text : String) : JBody :=
  enhance_text_body model st.backend_var text
    st.temperature_var st.max_tokens_var st.ollama_url_var
    (if st.backend_var = "openai" ∨ st.backend_var = "openrouter" then some st.api_key_var else none)
    default_site_name
    (some (get_enhancement_system_prompt st.enhancement_type_var))

/-- The wire body the enhance-text operation posts (given the raw text
widget content), or `none` when a caller-side check stops it before any
request.  No API-key check appears here. -/
def enhance_request_sent (st : GuiState) (raw_text : String) : Option JBody :=
  if st.available_models = [] then none
  else
    match get_selected_model st with
    | none => none
    | some m =>
      let text := pyStrip raw_text
      if text = "" then none
      else
        match st.api with
        | none => none
        | some api => some (make_request_body api (enhance_thread_body st m text))

/-- A fresh `OllamaVisionGUI` state as `__init__` and the variable
declarations build it (before any settings file is loaded). -/
def baseState : GuiState where
  is_connected := false
  selected_model := none
  available_models := []
  all_models := []
  filtered_models := []
  listbox_selection := none
  model_count_var := ""
  model_search_var := ""
  default_model_var := ""
  backend_var := "ollama"
  swarmui_url_var := "http://localhost:7801"
  ollama_url_var := "http://localhost:11434"
  api_key_var := ""
  session_id_var := ""
  openai_api_key := ""
  openrouter_api_key := ""
  textgen_url := "http://localhost:5000"
  temperature_var := 8/10
  max_tokens_var := 500
  top_p_var := 7/10
  top_k_var := 40
  repeat_penalty_var := 11/10
  seed_var := -1
  frequency_penalty_var := 0
  presence_penalty_var := 0
  min_p_var := 0
  top_a_var := 0
  current_image_data := none
  prompt_var := "Describe this image in detail"
  wan_i2v_var := false
  folder_path_var := ""
  caption_style_var := "Danbooru Tags"
  trigger_word_var := "1girl"
  enhancement_type_var := "qwen"
  api := none

/-- Equality of the connection-core fields a `connect` claim ranges
over: connected flag, catalog (all / filtered / displayed) and the
selection. -/
def coreEq (a b : GuiState) : Prop :=
  a.is_connected = b.is_connected ∧ a.selected_model = b.selected_model ∧
  a.available_models = b.available_models ∧ a.all_models = b.all_models ∧
  a.filtered_models = b.filtered_models

instance (a b : GuiState) : Decidable (coreEq a b) := by
  unfold coreEq; infer_instance

/-- The bootstrap result `connect_backend` observes. -/
def bootstrap_result (st : GuiState) (net : ConnectNet) : SessionCallResult :=
  (get_swarmui_session (mkOllamaVisionAPI st.swarmui_url_var) net.session).1

/- ### Claim theorems -/

/-- C9: with catalog `["llava", "qwen-vl", "bakllava"]` loaded (sorted ascending
on load) and filter text `"ll"`, the filtered list is `["bakllava", "llava"]`
(case-insensitive substring match in catalog order) and the model-count label
reads exactly "Showing 2 of 3 models". -/
theorem C9_filter_scenario :
    (load_models { baseState with api := some ⟨"http://localhost:7801", some (.jstr "s")⟩ }
        ⟨Transport.ok ⟨true, some ["llava", "qwen-vl", "bakllava"], none⟩,
         Transport.requestException ""⟩).all_models = ["bakllava", "llava", "qwen-vl"] ∧
    (filter_models
      { load_models { baseState with api := some ⟨"http://localhost:7801", some (.jstr "s")⟩ }
          ⟨Transport.ok ⟨true, some ["llava", "qwen-vl", "bakllava"], none⟩,
           Transport.requestException ""⟩ with model_search_var := "ll" }).filtered_models
      = ["bakllava", "llava"] ∧
    (filter_models
      { load_models { baseState with api := some ⟨"http://localhost:7801", some (.jstr "s")⟩ }
          ⟨Transport.ok ⟨true, some ["llava", "qwen-vl", "bakllava"], none⟩,
           Transport.requestException ""⟩ with model_search_var := "ll" }).model_count_var
      = "Showing 2 of 3 models" := by decide

/-- C10: a (re)load of the catalog resets `filtered_models` to the whole
new catalog whatever the current search text is; concretely, with search
text "zz" still visible, the loaded display shows the full catalog even
though applying the filter would show nothing. -/
theorem C10_load_ignores_filter :
    (∀ (st : GuiState) (q : String) (ms : List String) (msg : Option String)
        (a : OllamaVisionAPI) (lst : Transport ListingBody),
      (load_models { st with backend_var := "ollama", model_search_var := q, api := some a }
          ⟨Transport.ok ⟨true, some ms, msg⟩, lst⟩).filtered_models = sortStrings ms) ∧
    ((load_models { baseState with model_search_var := "zz", api := some ⟨"u", none⟩ }
        ⟨Transport.ok ⟨true, some ["alpha", "beta"], none⟩, Transport.requestException ""⟩).filtered_models
        = ["alpha", "beta"] ∧
     (load_models { baseState with model_search_var := "zz", api := some ⟨"u", none⟩ }
        ⟨Transport.ok ⟨true, some ["alpha", "beta"], none⟩, Transport.requestException ""⟩).model_search_var
        = "zz" ∧
     (filter_models (load_models { baseState with model_search_var := "zz", api := some ⟨"u", none⟩ }
        ⟨Transport.ok ⟨true, some ["alpha", "beta"], none⟩, Transport.requestException ""⟩)).filtered_models
        = []) := by
  constructor
  · intro st q ms msg a lst
    rfl
  · exact ⟨by decide, by decide, by decide⟩

/-- C1 (counterexample): a transport failure during a gateway operation
routed through `make_request` is NOT returned as `{success: false,
message: ...}` — it surfaces as a raised exception (`Except.error`)
crossing the client boundary, which the GUI callers must catch. -/
theorem C1_counterexample :
    make_request (α := GatewayResp) (mkOllamaVisionAPI "http://localhost:7801")
        "AnalyzeImageAsync" [] (Transport.requestException "connection refused")
      = Except.error "API request failed: connection refused" := rfl

/-- C1 (amended): the session bootstrap and the two direct listing calls
normalize every transport failure to `{success: false, message: cause}`
without touching client state; every other gateway operation goes
through `make_request`, which instead raises
`"API request failed: cause"` on a transport failure (and hands back the
parsed response otherwise). -/
theorem C1_transport_failure_boundary :
    (∀ (api : OllamaVisionAPI) (e : String),
      (get_swarmui_session api (Transport.requestException e)).1.success = false ∧
      (get_swarmui_session api (Transport.requestException e)).1.message
        = some ("Failed to get SwarmUI session: " ++ e) ∧
      (get_swarmui_session api (Transport.requestException e)).2 = api) ∧
    (∀ (key e : String),
      (get_openai_models key (Transport.requestException e)).success = false ∧
      (get_openai_models key (Transport.requestException e)).message
        = some ("Failed to fetch OpenAI models: " ++ e) ∧
      (get_openrouter_models key (Transport.requestException e)).success = false ∧
      (get_openrouter_models key (Transport.requestException e)).message
        = some ("Failed to fetch OpenRouter models: " ++ e)) ∧
    (∀ (api : OllamaVisionAPI) (endpoint : String) (data : JBody) (e : String),
      make_request (α := GatewayResp) api endpoint data (Transport.requestException e)
        = Except.error ("API request failed: " ++ e)) ∧
    (∀ (api : OllamaVisionAPI) (endpoint : String) (data : JBody) (r : GatewayResp),
      make_request api endpoint data (Transport.ok r) = Except.ok r) := by
  refine ⟨fun api e => ⟨rfl, rfl, rfl⟩, fun key e => ⟨rfl, rfl, rfl, rfl⟩,
    fun api endpoint data e => rfl, fun api endpoint data r => rfl⟩

/-- C6 (counterexample): a bootstrap response whose `session_id` field
is the empty string yields a SUCCESSFUL bootstrap whose token is stored
(a session exists), yet `make_request` omits the `session_id` field from
every subsequent body because the token is falsy. -/
theorem C6_counterexample :
    (get_swarmui_session (mkOllamaVisionAPI "http://localhost:7801")
        (Transport.ok [("session_id", JVal.jstr "")])).1.success = true ∧
    (get_swarmui_session (mkOllamaVisionAPI "http://localhost:7801")
        (Transport.ok [("session_id", JVal.jstr "")])).2.session_id = some (JVal.jstr "") ∧
    make_request_body
      (get_swarmui_session (mkOllamaVisionAPI "http://localhost:7801")
        (Transport.ok [("session_id", JVal.jstr "")])).2
      [("prompt", JVal.jstr "p")]
      = [("prompt", JVal.jstr "p")] := by decide

/-- C6 (amended): every body routed through `make_request` carries the
stored token under the fixed name `"session_id"` exactly when the token
exists AND is truthy (non-empty); with no token, or a falsy one, the
body is passed through unchanged.  Since no operation body of its own
contains a `"session_id"` key, the attached field is appended. -/
theorem C6_session_field :
    (∀ (api : OllamaVisionAPI) (data : JBody) (v : JVal),
      api.session_id = some v → jTruthy v = true →
        make_request_body api data = setKey data "session_id" v) ∧
    (∀ (api : OllamaVisionAPI) (data : JBody),
      api.session_id = none → make_request_body api data = data) ∧
    (∀ (api : OllamaVisionAPI) (data : JBody) (v : JVal),
      api.session_id = some v → jTruthy v = false →
        make_request_body api data = data) ∧
    (∀ (data : JBody) (v : JVal),
      ("session_id" ∈ keysOf data → False) →
        setKey data "session_id" v = data ++ [("session_id", v)]) := by
  refine ⟨?_, ?_, ?_, ?_⟩
  · intro api data v hv ht
    simp [make_request_body, hv, ht]
  · intro api data hv
    simp [make_request_body, hv]
  · intro api data v hv ht
    simp [make_request_body, hv, ht]
  · intro data v hmem
    unfold setKey
    rw [if_neg]
    intro h
    exact hmem (List.mem_of_elem_eq_true h)

/-- C6 witness. -/
theorem C6_session_field_witness :
    make_request_body ⟨"u", some (JVal.jstr "tok")⟩ [("prompt", JVal.jstr "p")]
        = setKey [("prompt", JVal.jstr "p")] "session_id" (JVal.jstr "tok") ∧
    make_request_body ⟨"u", none⟩ [("prompt", JVal.jstr "p")] = [("prompt", JVal.jstr "p")] ∧
    setKey [("prompt", JVal.jstr "p")] "session_id" (JVal.jstr "tok")
        = [("prompt", JVal.jstr "p")] ++ [("session_id", JVal.jstr "tok")] :=
  ⟨C6_session_field.1 ⟨"u", some (JVal.jstr "tok")⟩ [("prompt", JVal.jstr "p")]
      (JVal.jstr "tok") rfl (by decide),
   C6_session_field.2.1 ⟨"u", none⟩ [("prompt", JVal.jstr "p")] rfl,
   C6_session_field.2.2.2 [("prompt", JVal.jstr "p")] (JVal.jstr "tok") (by decide)⟩

/-- C7 (counterexample): a provider response whose `data` array holds an
entry with the (present) id `""` is not returned in full: the empty id
is dropped by the `if model_id:` validity filter, so not EVERY id in the
response is returned. -/
theorem C7_counterexample :
    (get_openai_models "k"
        (Transport.ok ⟨some [[("id", JVal.jstr "gpt-4")], [("id", JVal.jstr "")]]⟩)).models
      = ["gpt-4"] ∧
    entry_id [("id", JVal.jstr "")] = "" ∧
    ([[("id", JVal.jstr "gpt-4")], [("id", JVal.jstr "")]].map entry_id) = ["gpt-4", ""] := by
  decide

/-- C7 (amended): both listing calls go directly to the provider's
endpoint with the stored key as a Bearer token, and on success return
the response's model ids verbatim, in response order, with exactly one
filter: entries whose id is missing or empty are dropped (no
capability-based filtering); when every entry has a non-empty id the
returned list is exactly the mapped ids. -/
theorem C7_listing_verbatim :
    (∀ (key : String) (entries : List JBody),
      (get_openai_models key (Transport.ok ⟨some entries⟩)).success = true ∧
      (get_openai_models key (Transport.ok ⟨some entries⟩)).models
        = (entries.map entry_id).filter (fun s => s ≠ "") ∧
      (get_openrouter_models key (Transport.ok ⟨some entries⟩)).success = true ∧
      (get_openrouter_models key (Transport.ok ⟨some entries⟩)).models
        = (entries.map entry_id).filter (fun s => s ≠ "")) ∧
    (∀ (key : String) (entries : List JBody),
      (∀ e ∈ entries, entry_id e ≠ "") →
        (get_openai_models key (Transport.ok ⟨some entries⟩)).models = entries.map entry_id) ∧
    (∀ key : String,
      openai_models_request key = ⟨"https://api.openai.com/v1/models", "Bearer " ++ key⟩ ∧
      openrouter_models_request key = ⟨"https://openrouter.ai/api/v1/models", "Bearer " ++ key⟩) := by
  refine ⟨fun key entries => ⟨rfl, rfl, rfl, rfl⟩, ?_, fun key => ⟨rfl, rfl⟩⟩
  intro key entries h
  show (entries.map entry_id).filter (fun s => s ≠ "") = entries.map entry_id
  rw [List.filter_eq_self]
  intro s hs
  rcases List.mem_map.mp hs with ⟨e, he, rfl⟩
  simpa using h e he

/-- C7 witness. -/
theorem C7_listing_verbatim_witness :
    (get_openai_models "k" (Transport.ok ⟨some [[("id", JVal.jstr "a")]]⟩)).models
      = [[("id", JVal.jstr "a")]].map entry_id :=
  C7_listing_verbatim.2.1 "k" [[("id", JVal.jstr "a")]] (by decide)

/-- C3: for a fixed input, each request body contains exactly the fields
of the backend table: ollama gets `backendType="ollama"` plus the
backend URL and no key; openai gets `backendType="openai"` plus the key
and no site name; openrouter gets `backendType="openrouter"`, the key
and the site name (whose unpassed default is the fixed `"SwarmUI"`);
`systemPrompt` appears iff a non-empty override is supplied; the
textgen connect body carries exactly the URL field, fed from the same
local field as ollama's connect URL. -/
theorem C3_request_fields :
    (∀ (img model prompt : String) (t : ℚ) (mt : ℤ) (url : String)
        (key : Option String) (site : String) (sys : Option String),
      keysOf (analyze_image_body img model "ollama" prompt t mt url key site sys)
        = ["model", "backendType", "imageData", "prompt", "temperature", "maxTokens"]
          ++ (if strTruthy sys then ["systemPrompt"] else []) ++ ["ollamaUrl"] ∧
      getKey (analyze_image_body img model "ollama" prompt t mt url key site sys) "backendType"
        = some (.jstr "ollama") ∧
      keysOf (analyze_image_body img model "openai" prompt t mt url key site sys)
        = ["model", "backendType", "imageData", "prompt", "temperature", "maxTokens"]
          ++ (if strTruthy sys then ["systemPrompt"] else []) ++ ["apiKey"] ∧
      getKey (analyze_image_body img model "openai" prompt t mt url key site sys) "backendType"
        = some (.jstr "openai") ∧
      keysOf (analyze_image_body img model "openrouter" prompt t mt url key site sys)
        = ["model", "backendType", "imageData", "prompt", "temperature", "maxTokens"]
          ++ (if strTruthy sys then ["systemPrompt"] else []) ++ ["apiKey", "siteName"] ∧
      getKey (analyze_image_body img model "openrouter" prompt t mt url key site sys) "siteName"
        = some (.jstr site)) ∧
    (∀ (model prompt : String) (t : ℚ) (mt : ℤ) (url : String)
        (key : Option String) (site : String) (sys : Option String),
      keysOf (enhance_text_body model "ollama" prompt t mt url key site sys)
        = ["model", "backendType", "prompt", "temperature", "maxTokens"]
          ++ (if strTruthy sys then ["systemPrompt"] else []) ++ ["ollamaUrl"] ∧
      keysOf (enhance_text_body model "openai" prompt t mt url key site sys)
        = ["model", "backendType", "prompt", "temperature", "maxTokens"]
          ++ (if strTruthy sys then ["systemPrompt"] else []) ++ ["apiKey"] ∧
      keysOf (enhance_text_body model "openrouter" prompt t mt url key site sys)
        = ["model", "backendType", "prompt", "temperature", "maxTokens"]
          ++ (if strTruthy sys then ["systemPrompt"] else []) ++ ["apiKey", "siteName"]) ∧
    (∀ (folder model cs tw : String) (t : ℚ) (mt : ℤ) (url : String)
        (key : Option String) (site : String),
      keysOf (batch_caption_body folder model "ollama" cs tw t mt url key site)
        = ["folderPath", "model", "backendType", "captionStyle", "triggerWord",
           "temperature", "maxTokens", "ollamaUrl"] ∧
      keysOf (batch_caption_body folder model "openai" cs tw t mt url key site)
        = ["folderPath", "model", "backendType", "captionStyle", "triggerWord",
           "temperature", "maxTokens", "apiKey"] ∧
      keysOf (batch_caption_body folder model "openrouter" cs tw t mt url key site)
        = ["folderPath", "model", "backendType", "captionStyle", "triggerWord",
           "temperature", "maxTokens", "apiKey", "siteName"]) ∧
    (∀ u : String,
      connect_ollama_body u true = [("ollamaUrl", .jstr u), ("showAllModels", .jbool true)] ∧
      connect_textgen_body u = [("textgenUrl", .jstr u)]) ∧
    default_site_name = "SwarmUI" := by
  refine ⟨?_, ?_, ?_, fun u => ⟨rfl, rfl⟩, rfl⟩
  · intro img model prompt t mt url key site sys
    cases hsys : strTruthy sys <;>
      simp [analyze_image_body, keysOf, getKey, hsys, List.find?]
  · intro model prompt t mt url key site sys
    cases hsys : strTruthy sys <;>
      simp [enhance_text_body, keysOf, hsys]
  · intro folder model cs tw t mt url key site
    refine ⟨?_, ?_, ?_⟩ <;> simp [batch_caption_body, keysOf]

/-- A reachable state for the analyze pipeline: connected to OpenAI,
model selected, image loaded — and the stored API key empty. -/
def emptyKeyState : GuiState :=
  { baseState with
    backend_var := "openai", api_key_var := ""
    available_models := ["gpt-4o"], all_models := ["gpt-4o"], filtered_models := ["gpt-4o"]
    selected_model := some "gpt-4o"
    current_image_data := some "data:image/png;base64,AAAA"
    api := some ⟨"http://localhost:7801", some (.jstr "s1")⟩ }

/-- C4 (counterexample): with the OpenAI backend active and the stored
API key empty, the analyze-image operation passes every caller-side
check and posts a request carrying `apiKey = ""` — the missing
credential is NOT caught by the caller before the request is built and
sent. -/
theorem C4_counterexample :
    emptyKeyState.api_key_var = "" ∧
    analyze_validation_error emptyKeyState = none ∧
    (analyze_request_sent emptyKeyState).isSome = true ∧
    (analyze_request_sent emptyKeyState).bind (fun b => getKey b "apiKey")
      = some (JVal.jstr "") := by decide

/-- C4 (amended): only the model-listing operation (`load_models`)
checks the OpenAI/OpenRouter key on the caller side — with an empty key
it stops before any request, independently of the network.  The
analyze, batch-caption and enhance operations perform no key check:
once their own checks pass they post the request with
`apiKey = <stored key>` even when it is empty, deferring the failure to
the remote service. -/
theorem C4_key_checked_only_when_listing :
    (∀ (st : GuiState) (net : LoadNet),
      (st.backend_var = "openai" ∨ st.backend_var = "openrouter") → st.api_key_var = "" →
        load_models st net = { st with listbox_selection := none, available_models := [] }) ∧
    (∀ (st : GuiState) (m : String) (api : OllamaVisionAPI),
      (st.backend_var = "openai" ∨ st.backend_var = "openrouter") →
      analyze_validation_error st = none →
      get_selected_model st = some m → st.api = some api →
        analyze_request_sent st = some (make_request_body api (analyze_thread_body st m)) ∧
        getKey (analyze_thread_body st m) "apiKey" = some (JVal.jstr st.api_key_var)) ∧
    (∀ (st : GuiState) (m : String) (api : OllamaVisionAPI) (files : List String),
      (st.backend_var = "openai" ∨ st.backend_var = "openrouter") →
      st.folder_path_var ≠ "" → st.available_models ≠ [] →
      get_selected_model st = some m →
      (files.filter is_image_file).length ≠ 0 → st.api = some api →
        batch_request_sent st files = some (make_request_body api (batch_thread_body st m)) ∧
        getKey (batch_thread_body st m) "apiKey" = some (JVal.jstr st.api_key_var)) ∧
    (∀ (st : GuiState) (m : String) (api : OllamaVisionAPI) (raw : String),
      (st.backend_var = "openai" ∨ st.backend_var = "openrouter") →
      st.available_models ≠ [] →
      get_selected_model st = some m →
      pyStrip raw ≠ "" → st.api = some api →
        enhance_request_sent st raw
          = some (make_request_body api (enhance_thread_body st m (pyStrip raw))) ∧
        getKey (enhance_thread_body st m (pyStrip raw)) "apiKey"
          = some (JVal.jstr st.api_key_var)) := by
  refine ⟨?_, ?_, ?_, ?_⟩
  · intro st net hb hk
    rcases hb with hb | hb <;> simp [load_models, hb, hk]
  · intro st m api hb hval hsel hapi
    refine ⟨by simp [analyze_request_sent, hval, hsel, hapi], ?_⟩
    cases hs : strTruthy (if st.wan_i2v_var then some wan_i2v_director_prompt else none) <;>
      rcases hb with hb | hb <;>
        simp [analyze_thread_body, analyze_image_body, hb, hs, getKey, optStrJ]
  · intro st m api files hb hfolder hav hsel hfiles hapi
    refine ⟨by simp [batch_request_sent, hfolder, hav, hsel, hfiles, hapi], ?_⟩
    rcases hb with hb | hb <;>
      simp [batch_thread_body, batch_caption_body, hb, getKey, optStrJ]
  · intro st m api raw hb hav hsel hstrip hapi
    refine ⟨by simp [enhance_request_sent, hav, hsel, hstrip, hapi], ?_⟩
    cases hs : strTruthy (some (get_enhancement_system_prompt st.enhancement_type_var)) <;>
      rcases hb with hb | hb <;>
        simp [enhance_thread_body, enhance_text_body, hb, hs, getKey, optStrJ]

/-- C4 witness. -/
theorem C4_key_checked_only_when_listing_witness :
    load_models emptyKeyState ⟨Transport.requestException "x", Transport.requestException "x"⟩
      = { emptyKeyState with listbox_selection := none, available_models := [] } ∧
    analyze_request_sent emptyKeyState
      = some (make_request_body ⟨"http://localhost:7801", some (.jstr "s1")⟩
          (analyze_thread_body emptyKeyState "gpt-4o")) ∧
    batch_request_sent { emptyKeyState with folder_path_var := "/imgs" } ["a.png"]
      = some (make_request_body ⟨"http://localhost:7801", some (.jstr "s1")⟩
          (batch_thread_body { emptyKeyState with folder_path_var := "/imgs" } "gpt-4o")) ∧
    enhance_request_sent emptyKeyState " hello "
      = some (make_request_body ⟨"http://localhost:7801", some (.jstr "s1")⟩
          (enhance_thread_body emptyKeyState "gpt-4o" (pyStrip " hello "))) :=
  ⟨C4_key_checked_only_when_listing.1 emptyKeyState _ (Or.inl rfl) rfl,
   (C4_key_checked_only_when_listing.2.1 emptyKeyState "gpt-4o"
      ⟨"http://localhost:7801", some (.jstr "s1")⟩ (Or.inl rfl) (by decide) (by decide) rfl).1,
   (C4_key_checked_only_when_listing.2.2.1 { emptyKeyState with folder_path_var := "/imgs" }
      "gpt-4o" ⟨"http://localhost:7801", some (.jstr "s1")⟩ ["a.png"] (Or.inl rfl)
      (by decide) (by decide) (by decide) (by decide) rfl).1,
   (C4_key_checked_only_when_listing.2.2.2 emptyKeyState "gpt-4o"
      ⟨"http://localhost:7801", some (.jstr "s1")⟩ " hello " (Or.inl rfl)
      (by decide) (by decide) (by decide) rfl).1⟩

/-- The `connect_backend` oracle of the C2 counterexample: bootstrap
succeeds, the ollama connect step succeeds, and the catalog re-fetch
inside `load_models` then times out. -/
def fetchFailNet : ConnectNet :=
  ⟨Transport.ok [("session_id", .jstr "s1")],
   Transport.ok ⟨true, none, none⟩,
   ⟨Transport.requestException "timed out", Transport.requestException ""⟩⟩

/-- C2 (counterexample): starting disconnected, with the catalog-fetch
step failing after a successful connect step, `connect_backend` still
ends CONNECTED (with an empty displayed catalog): the state after the
call differs from the state before although a step failed. -/
theorem C2_counterexample :
    baseState.is_connected = false ∧
    (connect_backend baseState fetchFailNet).is_connected = true ∧
    (connect_backend baseState fetchFailNet).available_models = [] := by decide

/-- C2 (amended): every failure BEFORE or AT the backend step leaves the
connection core (flag, catalog, selection) exactly as it was: a failed
bootstrap, a raised connect step, a non-success connect result, a
missing TextGen URL or a missing OpenAI/OpenRouter key all roll back.
The one non-atomic path: when the connect step succeeds and the catalog
re-fetch inside `load_models` then fails, the call still sets
`is_connected := true`, clears `available_models`, and keeps the old
`all_models` / `filtered_models` / selection. -/
theorem C2_connect_rollback : ∀ (st : GuiState) (net : ConnectNet),
    ((bootstrap_result st net).success = false → coreEq (connect_backend st net) st) ∧
    (∀ e, st.backend_var = "ollama" → net.step = Transport.requestException e →
      coreEq (connect_backend st net) st) ∧
    (∀ e, st.backend_var = "textgen" → net.step = Transport.requestException e →
      coreEq (connect_backend st net) st) ∧
    (∀ r, st.backend_var = "ollama" ∨ (st.backend_var = "textgen" ∧ st.ollama_url_var ≠ "") →
      net.step = Transport.ok r → r.success = false → coreEq (connect_backend st net) st) ∧
    (st.backend_var = "textgen" → st.ollama_url_var = "" → coreEq (connect_backend st net) st) ∧
    ((st.backend_var = "openai" ∨ st.backend_var = "openrouter") → st.api_key_var = "" →
      coreEq (connect_backend st net) st) ∧
    (∀ r e, st.backend_var = "ollama" → (bootstrap_result st net).success = true →
      net.step = Transport.ok r → r.success = true →
      net.load.gw = Transport.requestException e →
        (connect_backend st net).is_connected = true ∧
        (connect_backend st net).available_models = [] ∧
        (connect_backend st net).all_models = st.all_models ∧
        (connect_backend st net).filtered_models = st.filtered_models ∧
        (connect_backend st net).selected_model = st.selected_model) := by
  intro st net
  refine ⟨?_, ?_, ?_, ?_, ?_, ?_, ?_⟩
  · intro hb
    unfold bootstrap_result at hb
    cases hs : net.session with
    | requestException e =>
      simp [connect_backend, get_swarmui_session, hs, coreEq]
    | ok data =>
      rw [hs] at hb
      cases hg : getKey data "session_id" with
      | none => simp [connect_backend, get_swarmui_session, hs, hg, coreEq]
      | some v => rw [get_swarmui_session] at hb; simp [hg] at hb
  · intro e hbk hstep
    cases hs : net.session with
    | requestException e2 =>
      simp [connect_backend, get_swarmui_session, hs, coreEq]
    | ok data =>
      cases hg : getKey data "session_id" with
      | none => simp [connect_backend, get_swarmui_session, hs, hg, coreEq]
      | some v =>
        simp [connect_backend, get_swarmui_session, hs, hg, hbk, hstep,
          connect_ollama, make_request, connect_post_step, coreEq]
  · intro e hbk hstep
    cases hs : net.session with
    | requestException e2 =>
      simp [connect_backend, get_swarmui_session, hs, coreEq]
    | ok data =>
      cases hg : getKey data "session_id" with
      | none => simp [connect_backend, get_swarmui_session, hs, hg, coreEq]
      | some v =>
        by_cases hurl : st.ollama_url_var = "" <;>
          simp [connect_backend, get_swarmui_session, hs, hg, hbk, hstep, hurl,
            connect_textgen, make_request, connect_post_step, coreEq]
  · intro r hbk hstep hr
    cases hs : net.session with
    | requestException e2 =>
      simp [connect_backend, get_swarmui_session, hs, coreEq]
    | ok data =>
      cases hg : getKey data "session_id" with
      | none => simp [connect_backend, get_swarmui_session, hs, hg, coreEq]
      | some v =>
        rcases hbk with hbk | ⟨hbk, hurl⟩ <;>
          simp [connect_backend, get_swarmui_session, hs, hg, hbk, hstep, hr,
            connect_ollama, connect_textgen, make_request, connect_post_step, coreEq]
  · intro hbk hurl
    cases hs : net.session with
    | requestException e2 =>
      simp [connect_backend, get_swarmui_session, hs, coreEq]
    | ok data =>
      cases hg : getKey data "session_id" with
      | none => simp [connect_backend, get_swarmui_session, hs, hg, coreEq]
      | some v =>
        simp [connect_backend, get_swarmui_session, hs, hg, hbk, hurl, coreEq]
  · intro hbk hk
    cases hs : net.session with
    | requestException e2 =>
      simp [connect_backend, get_swarmui_session, hs, coreEq]
    | ok data =>
      cases hg : getKey data "session_id" with
      | none => simp [connect_backend, get_swarmui_session, hs, hg, coreEq]
      | some v =>
        rcases hbk with hbk | hbk <;>
          simp [connect_backend, get_swarmui_session, hs, hg, hbk, hk, coreEq]
  · intro r e hbk hb hstep hr hload
    cases hs : net.session with
    | requestException e2 =>
      unfold bootstrap_result at hb
      rw [hs] at hb
      simp [get_swarmui_session] at hb
    | ok data =>
      cases hg : getKey data "session_id" with
      | none =>
        unfold bootstrap_result at hb
        rw [hs] at hb
        simp [get_swarmui_session, hg] at hb
      | some v =>
        refine ⟨?_, ?_, ?_, ?_, ?_⟩ <;>
          simp [connect_backend, get_swarmui_session, hs, hg, hbk, hstep, hr, hload,
            connect_ollama, make_request, connect_post_step, load_models,
            update_models_display]

/-- C2 witness. -/
theorem C2_connect_rollback_witness :
    coreEq (connect_backend baseState
      ⟨Transport.requestException "refused", Transport.requestException "x",
       ⟨Transport.requestException "x", Transport.requestException "x"⟩⟩) baseState ∧
    coreEq (connect_backend baseState
      ⟨Transport.ok [("session_id", .jstr "s1")], Transport.requestException "refused",
       ⟨Transport.requestException "x", Transport.requestException "x"⟩⟩) baseState ∧
    (connect_backend baseState fetchFailNet).is_connected = true :=
  ⟨(C2_connect_rollback baseState _).1 (by decide),
   (C2_connect_rollback baseState _).2.1 "refused" rfl rfl,
   ((C2_connect_rollback baseState fetchFailNet).2.2.2.2.2.2
      ⟨true, none, none⟩ "timed out" rfl (by decide) rfl rfl rfl).1⟩

theorem sortStrings_eq_nil_iff {l : List String} : sortStrings l = [] ↔ l = [] := by
  constructor
  · intro h
    have hlen := (sortStrings_perm l).length_eq
    rw [h] at hlen
    exact List.length_eq_zero.mp hlen.symm
  · intro h
    subst h
    rfl

/-- The oracle of the C5 counterexample: bootstrap and connect step
succeed and the catalog fetch returns `["llava", "allava"]`. -/
def trimNet : ConnectNet :=
  ⟨Transport.ok [("session_id", .jstr "s1")],
   Transport.ok ⟨true, none, none⟩,
   ⟨Transport.ok ⟨true, some ["llava", "allava"], none⟩, Transport.requestException ""⟩⟩

/-- C5 (counterexample): with stored default `" llava"` — which is NOT a
member of the fetched catalog — a successful connect selects the
STRIPPED default `"llava"` rather than the first model `"allava"` of
the sorted catalog, because the code compares
`default_model_var.strip()` against the catalog. -/
theorem C5_counterexample :
    (connect_backend { baseState with default_model_var := " llava" } trimNet).all_models
      = ["allava", "llava"] ∧
    " llava" ∉ (connect_backend { baseState with default_model_var := " llava" } trimNet).all_models ∧
    (connect_backend { baseState with default_model_var := " llava" } trimNet).selected_model
      = some "llava" := by decide

/-- What a successful connect leaves behind: connected, the catalog
sorted ascending, and the selection picked from the stripped stored
default (when non-empty and present in the catalog) else the first
model. -/
def connectedSel (res st : GuiState) (ms : List String) : Prop :=
  res.is_connected = true ∧
  res.all_models = sortStrings ms ∧
  List.Sorted (fun a b => strLeB a b = true) res.all_models ∧
  res.selected_model = some
    (if pyStrip st.default_model_var ≠ "" ∧ pyStrip st.default_model_var ∈ sortStrings ms
     then pyStrip st.default_model_var else (sortStrings ms).headI)

/-- C5 (amended): whenever `connect_backend` succeeds through a catalog
fetch (ollama via the gateway; openai/openrouter via the direct listing
— textgen fetches no catalog), the catalog is sorted ascending and the
selection is the STRIPPED stored default if that stripped value is
non-empty and a member of the catalog, else the first model.
Consequently, a selected model with no surrounding whitespace that is
set as default survives a disconnect/reconnect cycle whenever it is
still in the refreshed catalog. -/
theorem C5_default_reselected :
    (∀ (st : GuiState) (net : ConnectNet) (ms : List String) (msg : Option String)
        (r : GatewayResp),
      st.backend_var = "ollama" → (bootstrap_result st net).success = true →
      net.step = Transport.ok r → r.success = true →
      net.load.gw = Transport.ok ⟨true, some ms, msg⟩ → ms ≠ [] →
      connectedSel (connect_backend st net) st ms) ∧
    (∀ (st : GuiState) (net : ConnectNet) (entries : List JBody),
      (st.backend_var = "openai" ∨ st.backend_var = "openrouter") →
      (bootstrap_result st net).success = true → st.api_key_var ≠ "" →
      net.load.listing = Transport.ok ⟨some entries⟩ →
      (entries.map entry_id).filter nonEmptyStr ≠ [] →
      connectedSel (connect_backend st net) st
        ((entries.map entry_id).filter nonEmptyStr)) ∧
    (∀ (st : GuiState) (net : ConnectNet) (ms : List String) (msg : Option String)
        (r : GatewayResp) (m : String),
      st.selected_model = some m → m ≠ "" → pyStrip m = m →
      st.backend_var = "ollama" → (bootstrap_result st net).success = true →
      net.step = Transport.ok r → r.success = true →
      net.load.gw = Transport.ok ⟨true, some ms, msg⟩ → m ∈ ms →
      (connect_backend (disconnect_backend (set_as_default_model st)) net).selected_model
        = some m) := by
  have main : ∀ (st : GuiState) (net : ConnectNet) (ms : List String) (msg : Option String)
      (r : GatewayResp),
      st.backend_var = "ollama" → (bootstrap_result st net).success = true →
      net.step = Transport.ok r → r.success = true →
      net.load.gw = Transport.ok ⟨true, some ms, msg⟩ → ms ≠ [] →
      connectedSel (connect_backend st net) st ms := by
    intro st net ms msg r hbk hb hstep hr hload hms
    have hms' : sortStrings ms ≠ [] := fun h => hms (sortStrings_eq_nil_iff.mp h)
    cases hs : net.session with
    | requestException e2 =>
      unfold bootstrap_result at hb
      rw [hs] at hb
      simp [get_swarmui_session] at hb
    | ok data =>
      cases hg : getKey data "session_id" with
      | none =>
        unfold bootstrap_result at hb
        rw [hs] at hb
        simp [get_swarmui_session, hg] at hb
      | some v =>
        have hall : (connect_backend st net).all_models = sortStrings ms := by
          simp [connect_backend, get_swarmui_session, hs, hg, hbk, hstep, hr, hload,
            connect_ollama, make_request, connect_post_step, load_models,
            update_models_display, hms']
          split <;> rfl
        refine ⟨?_, hall, hall ▸ sortStrings_sorted ms, ?_⟩
        · simp [connect_backend, get_swarmui_session, hs, hg, hbk, hstep, hr, hload,
            connect_ollama, make_request, connect_post_step, load_models,
            update_models_display]
        · by_cases hd : pyStrip st.default_model_var ≠ "" ∧
              pyStrip st.default_model_var ∈ sortStrings ms <;>
            simp [connect_backend, get_swarmui_session, hs, hg, hbk, hstep, hr, hload,
              connect_ollama, make_request, connect_post_step, load_models,
              update_models_display, hms', hd]
  refine ⟨main, ?_, ?_⟩
  · intro st net entries hbk hb hkey hload hne
    have hms' : sortStrings ((entries.map entry_id).filter nonEmptyStr) ≠ [] :=
      fun h => hne (sortStrings_eq_nil_iff.mp h)
    cases hs : net.session with
    | requestException e2 =>
      unfold bootstrap_result at hb
      rw [hs] at hb
      simp [get_swarmui_session] at hb
    | ok data =>
      cases hg : getKey data "session_id" with
      | none =>
        unfold bootstrap_result at hb
        rw [hs] at hb
        simp [get_swarmui_session, hg] at hb
      | some v =>
        rcases hbk with hbk | hbk
        · have hall : (connect_backend st net).all_models
              = sortStrings ((entries.map entry_id).filter nonEmptyStr) := by
            simp only [connect_backend, get_swarmui_session, hs, hg, hbk, hkey, hload,
              connect_post_step, load_models, get_openai_models, update_models_display]
            simp [hms']
            split <;> rfl
          refine ⟨?_, hall, hall ▸ sortStrings_sorted _, ?_⟩
          · simp [connect_backend, get_swarmui_session, hs, hg, hbk, hkey, hload,
              connect_post_step, load_models, get_openai_models, update_models_display]
          · by_cases hd : pyStrip st.default_model_var ≠ "" ∧ pyStrip st.default_model_var ∈
                sortStrings ((entries.map entry_id).filter nonEmptyStr) <;>
              simp [connect_backend, get_swarmui_session, hs, hg, hbk, hkey, hload,
                connect_post_step, load_models, get_openai_models,
                update_models_display, hms', hd]
        · have hall : (connect_backend st net).all_models
              = sortStrings ((entries.map entry_id).filter nonEmptyStr) := by
            simp only [connect_backend, get_swarmui_session, hs, hg, hbk, hkey, hload,
              connect_post_step, load_models, get_openrouter_models, update_models_display]
            simp [hms']
            split <;> rfl
          refine ⟨?_, hall, hall ▸ sortStrings_sorted _, ?_⟩
          · simp [connect_backend, get_swarmui_session, hs, hg, hbk, hkey, hload,
              connect_post_step, load_models, get_openrouter_models, update_models_display]
          · by_cases hd : pyStrip st.default_model_var ≠ "" ∧ pyStrip st.default_model_var ∈
                sortStrings ((entries.map entry_id).filter nonEmptyStr) <;>
              simp [connect_backend, get_swarmui_session, hs, hg, hbk, hkey, hload,
                connect_post_step, load_models, get_openrouter_models,
                update_models_display, hms', hd]
  · intro st net ms msg r m hsel hm hstrip hbk hb hstep hr hload hmem
    set st2 := disconnect_backend (set_as_default_model st) with hst2
    have hfields : st2.default_model_var = m ∧ st2.backend_var = st.backend_var ∧
        st2.swarmui_url_var = st.swarmui_url_var := by
      refine ⟨?_, ?_, ?_⟩ <;>
        simp [hst2, disconnect_backend, set_as_default_model, update_models_display,
          sync_stored_credentials, hsel, hm, hbk]
    have hboot2 : (bootstrap_result st2 net).success = true := by
      unfold bootstrap_result at hb ⊢
      rw [hfields.2.2]
      exact hb
    have h1 := main st2 net ms msg r (hfields.2.1.trans hbk) hboot2 hstep hr hload
      (fun h => by simp [h] at hmem)
    have hd : pyStrip st2.default_model_var ≠ "" ∧
        pyStrip st2.default_model_var ∈ sortStrings ms := by
      rw [hfields.1, hstrip]
      exact ⟨hm, mem_sortStrings.mpr hmem⟩
    rw [h1.2.2.2, if_pos hd, hfields.1, hstrip]

/-- C5 witness. -/
theorem C5_default_reselected_witness :
    connectedSel
      (connect_backend { baseState with default_model_var := "llava" } trimNet)
      { baseState with default_model_var := "llava" } ["llava", "allava"] ∧
    (connect_backend
        (disconnect_backend (set_as_default_model
          { baseState with selected_model := some "llava" })) trimNet).selected_model
      = some "llava" :=
  ⟨C5_default_reselected.1 { baseState with default_model_var := "llava" } trimNet
      ["llava", "allava"] none ⟨true, none, none⟩ rfl (by decide) rfl rfl rfl (by decide),
   C5_default_reselected.2.2 { baseState with selected_model := some "llava" } trimNet
      ["llava", "allava"] none ⟨true, none, none⟩ "llava" rfl (by decide) (by decide)
      rfl (by decide) rfl rfl rfl (by decide)⟩

/-- C8: saving the settings document and loading it back reproduces
every settings field bit-for-bit — the per-backend independent
credentials (OpenAI key, OpenRouter key, TextGen URL), the active
backend kind, the default model, the URL fields and all ten sampling
parameters — for every application state satisfying the sync invariants
the UI handlers maintain (`on_api_key_change` / `on_backend_change`
keep the shared key/URL fields mirroring the active backend's store,
and clear the key field when no key-backed backend is active); the
session-id display is likewise reproduced when loading into the saving
state. -/
theorem C8_settings_roundtrip : ∀ (st t : GuiState),
    (st.backend_var = "openai" → st.api_key_var = st.openai_api_key) →
    (st.backend_var = "openrouter" → st.api_key_var = st.openrouter_api_key) →
    (st.backend_var = "textgen" → st.ollama_url_var = st.textgen_url) →
    (st.backend_var ≠ "openai" → st.backend_var ≠ "openrouter" → st.backend_var ≠ "textgen" →
      st.api_key_var = "") →
    ((load_settings (save_settings st).2 t).swarmui_url_var = st.swarmui_url_var ∧
     (load_settings (save_settings st).2 t).backend_var = st.backend_var ∧
     (load_settings (save_settings st).2 t).ollama_url_var = st.ollama_url_var ∧
     (load_settings (save_settings st).2 t).api_key_var = st.api_key_var ∧
     (load_settings (save_settings st).2 t).default_model_var = st.default_model_var ∧
     (load_settings (save_settings st).2 t).openai_api_key = st.openai_api_key ∧
     (load_settings (save_settings st).2 t).openrouter_api_key = st.openrouter_api_key ∧
     (load_settings (save_settings st).2 t).textgen_url = st.textgen_url) ∧
    ((load_settings (save_settings st).2 t).temperature_var = st.temperature_var ∧
     (load_settings (save_settings st).2 t).max_tokens_var = st.max_tokens_var ∧
     (load_settings (save_settings st).2 t).top_p_var = st.top_p_var ∧
     (load_settings (save_settings st).2 t).top_k_var = st.top_k_var ∧
     (load_settings (save_settings st).2 t).repeat_penalty_var = st.repeat_penalty_var ∧
     (load_settings (save_settings st).2 t).seed_var = st.seed_var ∧
     (load_settings (save_settings st).2 t).frequency_penalty_var = st.frequency_penalty_var ∧
     (load_settings (save_settings st).2 t).presence_penalty_var = st.presence_penalty_var ∧
     (load_settings (save_settings st).2 t).min_p_var = st.min_p_var ∧
     (load_settings (save_settings st).2 t).top_a_var = st.top_a_var) ∧
    (load_settings (save_settings st).2 st).session_id_var = st.session_id_var := by
  intro st t h1 h2 h3 h4
  by_cases hb1 : st.backend_var = "openai"
  · refine ⟨?_, ?_, ?_⟩ <;>
      simp [load_settings, save_settings, sync_stored_credentials, on_backend_change,
        getStrD, getNumD, getIntD, getKey, hb1, h1 hb1] <;>
      split <;> simp_all
  · by_cases hb2 : st.backend_var = "openrouter"
    · refine ⟨?_, ?_, ?_⟩ <;>
        simp [load_settings, save_settings, sync_stored_credentials, on_backend_change,
          getStrD, getNumD, getIntD, getKey, hb1, hb2, h2 hb2] <;>
        split <;> simp_all
    · by_cases hb3 : st.backend_var = "textgen"
      · refine ⟨?_, ?_, ?_⟩ <;>
          simp [load_settings, save_settings, sync_stored_credentials, on_backend_change,
            getStrD, getNumD, getIntD, getKey, hb1, hb2, hb3, h3 hb3] <;>
          split <;> simp_all
      · refine ⟨?_, ?_, ?_⟩ <;>
          simp [load_settings, save_settings, sync_stored_credentials, on_backend_change,
            getStrD, getNumD, getIntD, getKey, hb1, hb2, hb3, h4 hb1 hb2 hb3] <;>
          split <;> simp_all

/-- C8 witness. -/
theorem C8_settings_roundtrip_witness :
    (load_settings (save_settings baseState).2 baseState).backend_var = baseState.backend_var ∧
    (load_settings (save_settings baseState).2 baseState).textgen_url = baseState.textgen_url :=
  ⟨((C8_settings_roundtrip baseState baseState (by decide) (by decide) (by decide)
      (fun _ _ _ => rfl)).1).2.1,
   ((C8_settings_roundtrip baseState baseState (by decide) (by decide) (by decide)
      (fun _ _ _ => rfl)).1).2.2.2.2.2.2.2⟩
